import Mathlib

/-!
Verification of the batching-and-delivery exporter subsystem of the
lumberjack/treebeard Go telemetry SDK, as a shallow embedding in Lean.

Durations are modelled in milliseconds as naturals.  The HTTP transport is
modelled by a responder oracle mapping the attempt index to the outcome of
`client.Do` (a transport-level error, or a response with a status code), and
the `rand.Float64() * float64(backoff)` jitter by a jitter oracle mapping the
attempt index to a duration.  Buffered records are an abstract type `α`
(the exporters treat records as opaque after conversion).
-/

/-- Outcome of one `client.Do` call inside the retry loop of
`sendWithRetry`: either a transport-level error (`err != nil`) or a response
carrying an HTTP status code. -/
inductive DoResult where
  | transportError
  | status (code : Nat)
deriving DecidableEq, Repr

/-- A `DoResult` on which the retry loops of the three exporters retry:
a transport error, or a status of at least 500. -/
def DoResult.isRetryable : DoResult → Bool
  | .transportError => true
  | .status c => 500 ≤ c

/-- Final outcome of a `sendWithRetry` run: the function returned after a
`StatusOK` response (`success`), or it fell out of the loop and the batch
data was dropped (`dropped`). -/
inductive SendOutcome where
  | success
  | dropped
deriving DecidableEq, Repr

/-- Observable trace of one `sendWithRetry` run: number of `client.Do`
attempts, the backoff sleeps executed between attempts (in order, in ms),
and the final outcome. -/
structure SendTrace where
  attempts : Nat
  sleeps : List Nat
  outcome : SendOutcome
deriving DecidableEq, Repr

/-- Configuration struct from config.go, durations in milliseconds. -/
structure Config where
  apiKey : String
  baseURL : String
  debug : Bool
  projectName : String
  batchSize : Nat
  batchTimeout : Nat
  maxRetries : Nat
  retryBackoff : Nat
deriving Repr

/-- `NewConfig` from config.go.  `envBatchSize` stands for the successfully
parsed value of `LUMBERJACK_BATCH_SIZE` when that variable is set, and
`envDebug` for the parsed value of `LUMBERJACK_DEBUG`; the remaining fields
are set unconditionally: `BatchTimeout: 5 * time.Second`, `MaxRetries: 3`,
`RetryBackoff: 250 * time.Millisecond`. -/
def NewConfig (envBatchSize : Option Nat) (envDebug : Option Bool) : Config :=
  { apiKey := ""
    baseURL := "https://api.trylumberjack.com"
    debug := envDebug.getD false
    projectName := ""
    batchSize :=
      match envBatchSize with
      | some n => if 0 < n then n else 100
      | none => 100
    batchTimeout := 5000
    maxRetries := 3
    retryBackoff := 250 }

/-- Loop body of `sendWithRetry` (identical in logs_exporter.go,
spans_exporter.go and the metrics exporter).  `remaining` is the number of
iterations the guard `retries <= maxRetries` still allows, i.e.
`maxRetries + 1 - retries`; `idx` is the index of the next attempt (used to
query the responder and jitter oracles) and `backoff` the current backoff.
On a transport error or a 5xx status the code increments `retries` and, if
the guard still holds, sleeps `backoff + jitter` and doubles `backoff`; on
status 200 it returns; on any other status it breaks out of the loop. -/
def sendWithRetryAux (responder : Nat → DoResult) (jitter : Nat → Nat) :
    Nat → Nat → Nat → SendTrace
  | 0, _, _ => ⟨0, [], .dropped⟩
  | remaining + 1, idx, backoff =>
    match responder idx with
    | .transportError =>
      if 0 < remaining then
        let rest := sendWithRetryAux responder jitter remaining (idx + 1) (backoff * 2)
        ⟨rest.attempts + 1, (backoff + jitter idx) :: rest.sleeps, rest.outcome⟩
      else ⟨1, [], .dropped⟩
    | .status c =>
      if c = 200 then ⟨1, [], .success⟩
      else if 500 ≤ c then
        if 0 < remaining then
          let rest := sendWithRetryAux responder jitter remaining (idx + 1) (backoff * 2)
          ⟨rest.attempts + 1, (backoff + jitter idx) :: rest.sleeps, rest.outcome⟩
        else ⟨1, [], .dropped⟩
      else ⟨1, [], .dropped⟩

/-- `sendWithRetry` from the exporters: `retries := 0`,
`backoff := e.config.RetryBackoff`, then the loop
`for retries <= e.config.MaxRetries`. -/
def sendWithRetry (cfg : Config) (responder : Nat → DoResult) (jitter : Nat → Nat) : SendTrace :=
  sendWithRetryAux responder jitter (cfg.maxRetries + 1) 0 cfg.retryBackoff

/-- Period of the flush ticker created in `NewLogsExporter`:
`time.NewTicker(config.BatchTimeout)`. -/
def logsFlushTickerPeriod (cfg : Config) : Nat := cfg.batchTimeout

/-- Period of the flush ticker created in `NewSpanExporter`:
`time.NewTicker(config.BatchTimeout)`. -/
def spansFlushTickerPeriod (cfg : Config) : Nat := cfg.batchTimeout

/-- Period of the flush ticker created in `NewMetricsExporter`:
`time.NewTicker(config.BatchTimeout)`. -/
def metricsFlushTickerPeriod (cfg : Config) : Nat := cfg.batchTimeout

/-- Interval of the periodic metrics reader wired in `newSDK` (sdk.go):
`sdkmetric.WithInterval(30*time.Second)`.  This is the cadence at which the
OpenTelemetry reader collects metrics and calls the exporter, distinct from
the exporter-internal flush ticker. -/
def sdkMetricsReaderInterval : Nat := 30000

/-- Buffer-level state of one exporter: the live buffer (`e.batch`) and the
batches handed to `sendBatch` so far, in order. -/
structure ExporterState (α : Type) where
  batch : List α
  sent : List (List α)
deriving DecidableEq, Repr

/-- `flush` from the exporters: under the mutex, return immediately when the
buffer is empty, otherwise copy the buffer, truncate it to length zero, and
hand the copy to `sendBatch`. -/
def DefaultLogsExporter.flush {α : Type} (s : ExporterState α) : ExporterState α :=
  if s.batch.isEmpty then s
  else { batch := [], sent := s.sent ++ [s.batch] }

/-- `DefaultLogsExporter.Export`: append all converted entries to the buffer
under the mutex, evaluate `len(e.batch) >= e.config.BatchSize` once, release
the mutex, and flush when the threshold was reached.  Always returns nil. -/
def DefaultLogsExporter.Export {α : Type} (cfg : Config) (s : ExporterState α)
    (entries : List α) : ExporterState α :=
  let b := s.batch ++ entries
  if cfg.batchSize ≤ b.length then DefaultLogsExporter.flush ⟨b, s.sent⟩
  else ⟨b, s.sent⟩

/-- One operation on an exporter instance: a producer `Export` call carrying
the converted entries, or a timer-driven `flush` from `runFlusher`. -/
inductive ExpOp (α : Type) where
  | exportCall (entries : List α)
  | timerFlush
deriving Repr

/-- Effect of one operation on the exporter state; each operation is atomic
with respect to the buffer mutex. -/
def ExpOp.step {α : Type} (cfg : Config) (s : ExporterState α) : ExpOp α → ExporterState α
  | .exportCall entries => DefaultLogsExporter.Export cfg s entries
  | .timerFlush => DefaultLogsExporter.flush s

/-- Run a sequence of operations from a given state. -/
def runOps {α : Type} (cfg : Config) (s : ExporterState α) (ops : List (ExpOp α)) :
    ExporterState α :=
  ops.foldl (fun st op => op.step cfg st) s

/-- All records appended by a sequence of operations, in call order. -/
def appendedRecords {α : Type} : List (ExpOp α) → List α
  | [] => []
  | .exportCall entries :: ops => entries ++ appendedRecords ops
  | .timerFlush :: ops => appendedRecords ops

/-- Exporter state that also records, for every batch handed to `sendBatch`,
the `sendWithRetry` trace it produced.  The send runs on the stack of
whatever call invoked `flush`: `Export` (size trigger), `runFlusher` (time
trigger) or `Shutdown` (final drain) — nothing in the code spawns it. -/
structure FullState (α : Type) where
  batch : List α
  sent : List (List α × SendTrace)
deriving DecidableEq, Repr

/-- Total backoff-sleep time accumulated by all sends recorded in a state. -/
def FullState.sleepTotal {α : Type} (s : FullState α) : Nat :=
  (s.sent.map (fun p => p.2.sleeps.sum)).sum

/-- `flush` followed by `sendBatch` and `sendWithRetry`, all executed inline
on the stack of the caller of `flush`.  `marshal` models `json.Marshal` of
the request built from the snapshot: when it fails, `sendBatch` returns
before any network attempt and the snapshot is dropped. -/
def flushSend {α : Type} (cfg : Config) (responder : Nat → DoResult)
    (jitter : Nat → Nat) (marshal : List α → Bool) (s : FullState α) : FullState α :=
  if s.batch.isEmpty then s
  else if marshal s.batch then
    { batch := [], sent := s.sent ++ [(s.batch, sendWithRetry cfg responder jitter)] }
  else { batch := [], sent := s.sent }

/-- `DefaultLogsExporter.Export` with the send path included: convert and
append all records under the mutex, evaluate the size threshold once,
release the mutex, flush (and therefore send) inline when the threshold was
reached, and return nil — the Go function has a single `return nil`. -/
def DefaultLogsExporter.ExportFull {α : Type} (cfg : Config) (responder : Nat → DoResult)
    (jitter : Nat → Nat) (marshal : List α → Bool) (s : FullState α)
    (entries : List α) : FullState α × Option String :=
  let b := s.batch ++ entries
  let s2 :=
    if cfg.batchSize ≤ b.length then flushSend cfg responder jitter marshal ⟨b, s.sent⟩
    else (⟨b, s.sent⟩ : FullState α)
  (s2, none)

/-- `MetricsExporter.Export`: for each metric of each scope, convert it to
points, append the points under the mutex, evaluate the size threshold,
release the mutex and flush when it was reached; finally return nil.
`pointLists` is the list of converted point slices, one per metric, in
iteration order. -/
def MetricsExporter.Export {α : Type} (cfg : Config) (responder : Nat → DoResult)
    (jitter : Nat → Nat) (marshal : List α → Bool) (s : FullState α)
    (pointLists : List (List α)) : FullState α × Option String :=
  (pointLists.foldl
    (fun st points =>
      let b := st.batch ++ points
      if cfg.batchSize ≤ b.length then flushSend cfg responder jitter marshal ⟨b, st.sent⟩
      else ⟨b, st.sent⟩)
    s, none)

/-- What a `Shutdown` call returns in the model: nil, a context error is not
modelled (the deadline branch needs real concurrency), or a runtime panic
from `close` of an already-closed channel. -/
inductive ShutdownOutcome where
  | ok
  | panicked
deriving DecidableEq, Repr

/-- Lifecycle-relevant state of one exporter: whether `stopCh` has been
closed, the live buffer, and the batches drained to `sendBatch` so far. -/
structure LifecycleState (α : Type) where
  stopClosed : Bool
  batch : List α
  drained : List (List α)
deriving DecidableEq, Repr

/-- The `flush` performed during shutdown, at the buffer level. -/
def lifecycleFlush {α : Type} (s : LifecycleState α) : LifecycleState α :=
  if s.batch.isEmpty then s
  else { s with batch := [], drained := s.drained ++ [s.batch] }

/-- `DefaultLogsExporter.Shutdown` (logs_exporter.go): a `select` on
`stopCh` with a `default` arm — when the channel is already closed it
returns nil immediately; otherwise it closes `stopCh`, stops the ticker,
runs a final `flush`, and waits for the flusher goroutine. -/
def DefaultLogsExporter.Shutdown {α : Type} (s : LifecycleState α) :
    LifecycleState α × ShutdownOutcome :=
  if s.stopClosed then (s, .ok)
  else (lifecycleFlush { s with stopClosed := true }, .ok)

/-- `MetricsExporter.Shutdown`: same guarded structure as the logs
exporter — `select` with a `default` arm, returning nil when `stopCh` is
already closed. -/
def MetricsExporter.Shutdown {α : Type} (s : LifecycleState α) :
    LifecycleState α × ShutdownOutcome :=
  if s.stopClosed then (s, .ok)
  else (lifecycleFlush { s with stopClosed := true }, .ok)

/-- `SpanExporter.Shutdown` (spans_exporter.go): executes `close(e.stopCh)`
unconditionally, with no guard; in Go, `close` of an already-closed channel
panics at runtime, so a second call panics before reaching the flush. -/
def SpanExporter.Shutdown {α : Type} (s : LifecycleState α) :
    LifecycleState α × ShutdownOutcome :=
  if s.stopClosed then (s, .panicked)
  else (lifecycleFlush { s with stopClosed := true }, .ok)

/-- Helper: with one loop iteration left and a retryable outcome, the loop
increments `retries` past `maxRetries`, skips the sleep, and exits dropped. -/
theorem sendWithRetryAux_last (responder : Nat → DoResult) (jitter : Nat → Nat)
    (idx backoff : Nat) (h : (responder idx).isRetryable = true) :
    sendWithRetryAux responder jitter 1 idx backoff = ⟨1, [], .dropped⟩ := by
  unfold sendWithRetryAux
  cases hr : responder idx with
  | transportError => simp
  | status c =>
    rw [hr] at h
    simp only [DoResult.isRetryable, decide_eq_true_eq] at h
    have hc200 : ¬ c = 200 := by omega
    simp [hc200, h]

/-- Helper: with at least two loop iterations left and a retryable outcome,
the loop sleeps `backoff + jitter`, doubles the backoff and recurses. -/
theorem sendWithRetryAux_step (responder : Nat → DoResult) (jitter : Nat → Nat)
    (n idx backoff : Nat) (h : (responder idx).isRetryable = true) :
    sendWithRetryAux responder jitter (n + 2) idx backoff =
      ⟨(sendWithRetryAux responder jitter (n + 1) (idx + 1) (backoff * 2)).attempts + 1,
        (backoff + jitter idx) ::
          (sendWithRetryAux responder jitter (n + 1) (idx + 1) (backoff * 2)).sleeps,
        (sendWithRetryAux responder jitter (n + 1) (idx + 1) (backoff * 2)).outcome⟩ := by
  conv_lhs => unfold sendWithRetryAux
  cases hr : responder idx with
  | transportError => simp
  | status c =>
    rw [hr] at h
    simp only [DoResult.isRetryable, decide_eq_true_eq] at h
    have hc200 : ¬ c = 200 := by omega
    simp [hc200, h]

/-- Helper: when every attempt fails retryably, the loop performs all
`n + 1` attempts with sleeps `backoff * 2 ^ k + jitter` and ends dropped. -/
theorem sendWithRetryAux_all_retryable (responder : Nat → DoResult) (jitter : Nat → Nat)
    (h : ∀ i, (responder i).isRetryable = true) :
    ∀ n idx backoff, sendWithRetryAux responder jitter (n + 1) idx backoff =
      ⟨n + 1, (List.range n).map (fun k => backoff * 2 ^ k + jitter (idx + k)), .dropped⟩ := by
  intro n
  induction n with
  | zero =>
    intro idx backoff
    simp [sendWithRetryAux_last responder jitter idx backoff (h idx)]
  | succ n ih =>
    intro idx backoff
    rw [sendWithRetryAux_step responder jitter n idx backoff (h idx), ih (idx + 1) (backoff * 2)]
    refine congrArg₂ (fun a b => SendTrace.mk a b SendOutcome.dropped) rfl ?_
    rw [List.range_succ_eq_map, List.map_cons, List.map_map]
    refine congrArg₂ List.cons (by simp) ?_
    refine List.map_congr_left fun k _ => ?_
    simp only [Function.comp_apply]
    have h1 : idx + 1 + k = idx + k.succ := by omega
    rw [h1, pow_succ]
    ring

/-- Helper: `flush` conserves the sequence of records held across the sent
batches and the live buffer. -/
theorem flush_join {α : Type} (s : ExporterState α) :
    (DefaultLogsExporter.flush s).sent.flatten ++ (DefaultLogsExporter.flush s).batch =
      s.sent.flatten ++ s.batch := by
  unfold DefaultLogsExporter.flush
  by_cases h : s.batch.isEmpty
  · simp [h]
  · simp [h]

/-- Helper: `Export` conserves the record sequence, extended by the new
entries. -/
theorem export_join {α : Type} (cfg : Config) (s : ExporterState α) (entries : List α) :
    (DefaultLogsExporter.Export cfg s entries).sent.flatten ++
        (DefaultLogsExporter.Export cfg s entries).batch =
      s.sent.flatten ++ s.batch ++ entries := by
  unfold DefaultLogsExporter.Export
  by_cases h : cfg.batchSize ≤ (s.batch ++ entries).length
  · rw [if_pos h, flush_join]
    simp [List.append_assoc]
  · rw [if_neg h]
    simp [List.append_assoc]

/-- Helper: running any operation sequence conserves the record sequence. -/
theorem runOps_join {α : Type} (cfg : Config) (ops : List (ExpOp α)) :
    ∀ s : ExporterState α,
      (runOps cfg s ops).sent.flatten ++ (runOps cfg s ops).batch =
        s.sent.flatten ++ s.batch ++ appendedRecords ops := by
  induction ops with
  | nil => intro s; simp [runOps, appendedRecords]
  | cons op ops ih =>
    intro s
    have hstep : runOps cfg s (op :: ops) = runOps cfg (op.step cfg s) ops := rfl
    rw [hstep, ih]
    cases op with
    | exportCall entries =>
      simp only [ExpOp.step]
      rw [export_join]
      simp [appendedRecords, List.append_assoc]
    | timerFlush =>
      simp only [ExpOp.step]
      rw [flush_join]
      simp [appendedRecords]

/-- C1: the claim states that a second shutdown after a completed first one
is a silent no-op for every exporter.  This holds for the logs and metrics
exporters, whose `Shutdown` guards the close with a `select`/`default` on
`stopCh`, but the span exporter executes `close(e.stopCh)` unconditionally,
so its second `Shutdown` call closes an already-closed channel, which panics
in Go.  The theorem evaluates all three models on a completed first
shutdown followed by a second call. -/
theorem C1_span_double_shutdown_panics :
    (SpanExporter.Shutdown
        (SpanExporter.Shutdown (⟨false, [0], []⟩ : LifecycleState Nat)).1).2 =
      ShutdownOutcome.panicked ∧
    DefaultLogsExporter.Shutdown
        (DefaultLogsExporter.Shutdown (⟨false, [0], []⟩ : LifecycleState Nat)).1 =
      ((⟨true, [], [[0]]⟩ : LifecycleState Nat), ShutdownOutcome.ok) ∧
    MetricsExporter.Shutdown
        (MetricsExporter.Shutdown (⟨false, [0], []⟩ : LifecycleState Nat)).1 =
      ((⟨true, [], [[0]]⟩ : LifecycleState Nat), ShutdownOutcome.ok) := by
  decide

/-- C2: every appended record ends up in exactly one snapshotted batch and
is absent from the live buffer afterwards: for every sequence of Export
calls interleaved with flushes, the concatenation of all sent batches
followed by the residual live buffer equals exactly the sequence of all
appended records, in order — nothing is lost, duplicated, or split, because
the snapshot-and-clear in `flush` is one atomic step under the mutex. -/
theorem C2_no_loss_no_duplication {α : Type} (cfg : Config) (ops : List (ExpOp α)) :
    (runOps cfg ⟨[], []⟩ ops).sent.flatten ++ (runOps cfg ⟨[], []⟩ ops).batch =
      appendedRecords ops := by
  have h := runOps_join cfg ops ⟨[], []⟩
  simpa using h

/-- C5 counterexample: the claim states the metrics exporter flush timer
fires about every 30 seconds, but `NewMetricsExporter` creates its ticker
from `config.BatchTimeout`, which `NewConfig` sets to 5 seconds — the same
period as the logs and spans exporters, not 30 seconds. -/
theorem C5_metrics_ticker_is_5s :
    metricsFlushTickerPeriod (NewConfig none none) = 5000 ∧ (5000 : Nat) ≠ 30000 :=
  ⟨rfl, by decide⟩

/-- C5 amended: with the default configuration, the flush tickers of the
logs, spans and metrics exporters all fire every `BatchTimeout` = 5 s; the
30 s cadence belongs to the periodic metrics reader configured in `newSDK`
(sdk.go), which controls how often collected metrics are pushed into the
metrics exporter, not to the exporter-internal flush ticker. -/
theorem C5_ticker_periods :
    logsFlushTickerPeriod (NewConfig none none) = 5000 ∧
    spansFlushTickerPeriod (NewConfig none none) = 5000 ∧
    metricsFlushTickerPeriod (NewConfig none none) = 5000 ∧
    sdkMetricsReaderInterval = 30000 :=
  ⟨rfl, rfl, rfl, rfl⟩

/-- C9: for every input and every delivery outcome — any responder
(transport failures, 4xx, 5xx, retry exhaustion), any marshal outcome —
both the logs `Export` and the metrics `Export` return nil to the producer;
delivery failures are never propagated through the return value. -/
theorem C9_export_returns_no_error {α : Type} (cfg : Config) (responder : Nat → DoResult)
    (jitter : Nat → Nat) (marshal : List α → Bool) (s : FullState α)
    (entries : List α) (pointLists : List (List α)) :
    (DefaultLogsExporter.ExportFull cfg responder jitter marshal s entries).2 = none ∧
    (MetricsExporter.Export cfg responder jitter marshal s pointLists).2 = none :=
  ⟨rfl, rfl⟩

/-- C3 counterexample: a 204 response lies inside 200..299, but the loop
drops the batch instead of treating it as success, because the success
check in `sendWithRetry` is `resp.StatusCode == http.StatusOK`, i.e.
exactly 200: a 204 falls to the non-5xx `break` and the function returns
without sending again and without the success path. -/
theorem C3_status_204_not_success :
    sendWithRetry (NewConfig none none) (fun _ => DoResult.status 204) (fun _ => 0) =
      ⟨1, [], SendOutcome.dropped⟩ ∧
    SendOutcome.dropped ≠ SendOutcome.success :=
  ⟨rfl, by decide⟩

/-- C3 amended: for a first response with a 2xx status, the retry loop stops
immediately after exactly one attempt with no backoff sleep; the outcome is
success only for status exactly 200 — any other 2xx status exits through the
`break` branch and the batch is dropped as a terminal failure. -/
theorem C3_only_200_is_success (cfg : Config) (responder : Nat → DoResult)
    (jitter : Nat → Nat) (c : Nat) (h0 : responder 0 = DoResult.status c)
    (h1 : 200 ≤ c) (h2 : c ≤ 299) :
    sendWithRetry cfg responder jitter =
      ⟨1, [], if c = 200 then SendOutcome.success else SendOutcome.dropped⟩ := by
  have h500 : ¬ 500 ≤ c := by omega
  by_cases hc : c = 200
  · simp [sendWithRetry, sendWithRetryAux, h0, hc]
  · simp [sendWithRetry, sendWithRetryAux, h0, hc, h500]

/-- Witness for C3 amended, at status 204. -/
theorem C3_only_200_is_success_witness :
    ((fun _ => DoResult.status 204) 0 = DoResult.status 204) ∧ 200 ≤ 204 ∧ 204 ≤ 299 ∧
    sendWithRetry (NewConfig none none) (fun _ => DoResult.status 204) (fun _ => 0) =
      ⟨1, [], if 204 = 200 then SendOutcome.success else SendOutcome.dropped⟩ :=
  ⟨rfl, by decide, by decide,
    C3_only_200_is_success (NewConfig none none) _ _ 204 rfl (by decide) (by decide)⟩

/-- C6: when every attempt fails retryably (transport error or 5xx), the
loop performs exactly `maxRetries + 1` send attempts and then abandons the
batch: the trace ends dropped, with no durable queue in the model. -/
theorem C6_retry_exhaustion (cfg : Config) (responder : Nat → DoResult)
    (jitter : Nat → Nat) (h : ∀ i, (responder i).isRetryable = true) :
    (sendWithRetry cfg responder jitter).attempts = cfg.maxRetries + 1 ∧
    (sendWithRetry cfg responder jitter).outcome = SendOutcome.dropped := by
  unfold sendWithRetry
  rw [sendWithRetryAux_all_retryable responder jitter h cfg.maxRetries 0 cfg.retryBackoff]
  exact ⟨rfl, rfl⟩

/-- Witness for C6, with an always-503 responder and the default config
(`MaxRetries = 3`, so four attempts). -/
theorem C6_retry_exhaustion_witness :
    (∀ i : Nat, ((fun _ => DoResult.status 503) i).isRetryable = true) ∧
    (sendWithRetry (NewConfig none none) (fun _ => DoResult.status 503) (fun _ => 0)).attempts =
      (NewConfig none none).maxRetries + 1 ∧
    (sendWithRetry (NewConfig none none) (fun _ => DoResult.status 503) (fun _ => 0)).outcome =
      SendOutcome.dropped :=
  ⟨fun _ => (by decide : (DoResult.status 503).isRetryable = true),
    C6_retry_exhaustion (NewConfig none none) (fun _ => DoResult.status 503) (fun _ => 0)
      (fun _ => (by decide : (DoResult.status 503).isRetryable = true))⟩

/-- C7: when the first attempt returns a 4xx status, exactly one send
attempt occurs and the batch is abandoned immediately: no retry, no backoff
sleep — the status is neither 200 nor at least 500, so the loop breaks. -/
theorem C7_terminal_4xx_single_attempt (cfg : Config) (responder : Nat → DoResult)
    (jitter : Nat → Nat) (c : Nat) (h0 : responder 0 = DoResult.status c)
    (h1 : 400 ≤ c) (h2 : c ≤ 499) :
    sendWithRetry cfg responder jitter = ⟨1, [], SendOutcome.dropped⟩ := by
  have hc : ¬ c = 200 := by omega
  have h500 : ¬ 500 ≤ c := by omega
  simp [sendWithRetry, sendWithRetryAux, h0, hc, h500]

/-- Witness for C7, at status 400. -/
theorem C7_terminal_4xx_witness :
    ((fun _ => DoResult.status 400) 0 = DoResult.status 400) ∧ 400 ≤ 400 ∧ 400 ≤ 499 ∧
    sendWithRetry (NewConfig none none) (fun _ => DoResult.status 400) (fun _ => 0) =
      ⟨1, [], SendOutcome.dropped⟩ :=
  ⟨rfl, by decide, by decide,
    C7_terminal_4xx_single_attempt (NewConfig none none) _ _ 400 rfl (by decide) (by decide)⟩

/-- C8: under retryable failures, the k-th inter-attempt delay is exactly
`retryBackoff * 2 ^ k + jitter k`; with the jitter bounded by one backoff
interval (as `rand.Float64() * float64(backoff)` is), each delay is at
least its pre-jitter floor and at most twice that floor, and the floors
double, hence are monotonically non-decreasing. -/
theorem C8_backoff_floor_and_jitter (cfg : Config) (responder : Nat → DoResult)
    (jitter : Nat → Nat) (hresp : ∀ i, (responder i).isRetryable = true)
    (hjit : ∀ k, jitter k < cfg.retryBackoff * 2 ^ k) :
    (sendWithRetry cfg responder jitter).sleeps =
      (List.range cfg.maxRetries).map (fun k => cfg.retryBackoff * 2 ^ k + jitter k) ∧
    ∀ k, k < cfg.maxRetries →
      cfg.retryBackoff * 2 ^ k ≤ (sendWithRetry cfg responder jitter).sleeps.getD k 0 ∧
      (sendWithRetry cfg responder jitter).sleeps.getD k 0 ≤ 2 * (cfg.retryBackoff * 2 ^ k) ∧
      cfg.retryBackoff * 2 ^ k ≤ cfg.retryBackoff * 2 ^ (k + 1) := by
  have hs : (sendWithRetry cfg responder jitter).sleeps =
      (List.range cfg.maxRetries).map (fun k => cfg.retryBackoff * 2 ^ k + jitter k) := by
    unfold sendWithRetry
    rw [sendWithRetryAux_all_retryable responder jitter hresp cfg.maxRetries 0 cfg.retryBackoff]
    simp
  refine ⟨hs, fun k hk => ?_⟩
  have hg : (sendWithRetry cfg responder jitter).sleeps.getD k 0 =
      cfg.retryBackoff * 2 ^ k + jitter k := by
    rw [hs, List.getD_eq_getElem?_getD, List.getElem?_map, List.getElem?_range hk]
    simp
  rw [hg]
  have hj := hjit k
  refine ⟨Nat.le_add_right _ _, by omega, ?_⟩
  exact Nat.mul_le_mul_left _ (Nat.pow_le_pow_right (by norm_num) (Nat.le_succ k))

/-- Witness for C8, with an always-500 responder, zero jitter and the
default config. -/
theorem C8_backoff_witness :
    (∀ i : Nat, ((fun _ => DoResult.status 500) i).isRetryable = true) ∧
    (∀ k : Nat, (fun _ => (0 : Nat)) k < (NewConfig none none).retryBackoff * 2 ^ k) ∧
    (sendWithRetry (NewConfig none none) (fun _ => DoResult.status 500)
        (fun _ => (0 : Nat))).sleeps =
      (List.range (NewConfig none none).maxRetries).map
        (fun k => (NewConfig none none).retryBackoff * 2 ^ k + (fun _ => (0 : Nat)) k) := by
  have hj : ∀ k : Nat, (fun _ => (0 : Nat)) k < (NewConfig none none).retryBackoff * 2 ^ k := by
    intro k
    show 0 < 250 * 2 ^ k
    positivity
  exact ⟨fun _ => (by decide : (DoResult.status 500).isRetryable = true), hj,
    (C8_backoff_floor_and_jitter (NewConfig none none) (fun _ => DoResult.status 500)
      (fun _ => (0 : Nat))
      (fun _ => (by decide : (DoResult.status 500).isRetryable = true)) hj).1⟩

/-- C4 counterexample: the claim states the size-triggered send is spawned
outside the caller so `Export` never blocks on network I/O or backoff
sleeps.  In the code, `Export` calls `flush`, which calls `sendBatch` and
`sendWithRetry` on the same stack — nothing spawns a goroutine for it.
With `BatchSize = 1`, `MaxRetries = 3`, `RetryBackoff = 250 ms` and an
always-500 endpoint, a single one-record `Export` call executes
250 + 500 + 1000 = 1750 ms of backoff sleep before returning. -/
theorem C4_export_blocks_on_backoff :
    ((DefaultLogsExporter.ExportFull (NewConfig (some 1) none)
        (fun _ => DoResult.status 500) (fun _ => 0) (fun _ => true)
        (⟨[], []⟩ : FullState Nat) [0]).1).sleepTotal = 1750 ∧ (1750 : Nat) ≠ 0 :=
  ⟨rfl, by decide⟩

/-- C4 amended: the size-triggered send happens outside the buffer mutex
but synchronously inside the `Export` call, not as a spawned task: when the
append crosses the threshold (and the request marshals), the entire
`sendWithRetry` for the drained batch — including all its backoff sleeps —
runs before `Export` returns, so the producer is blocked for exactly the
sleep time of that send. -/
theorem C4_send_runs_inline {α : Type} (cfg : Config) (responder : Nat → DoResult)
    (jitter : Nat → Nat) (marshal : List α → Bool) (s : FullState α) (entries : List α)
    (hthresh : cfg.batchSize ≤ (s.batch ++ entries).length)
    (hne : (s.batch ++ entries).isEmpty = false)
    (hm : marshal (s.batch ++ entries) = true) :
    ((DefaultLogsExporter.ExportFull cfg responder jitter marshal s entries).1).sleepTotal =
      s.sleepTotal + (sendWithRetry cfg responder jitter).sleeps.sum := by
  have hthresh2 : cfg.batchSize ≤ s.batch.length + entries.length := by
    simpa using hthresh
  simp [DefaultLogsExporter.ExportFull, flushSend, hthresh2, hne, hm, FullState.sleepTotal]

/-- Witness for C4 amended, at the counterexample input. -/
theorem C4_send_runs_inline_witness :
    (NewConfig (some 1) none).batchSize ≤ (([] : List Nat) ++ [0]).length ∧
    (([] : List Nat) ++ [0]).isEmpty = false ∧
    (fun _ : List Nat => true) (([] : List Nat) ++ [0]) = true ∧
    ((DefaultLogsExporter.ExportFull (NewConfig (some 1) none)
        (fun _ => DoResult.status 500) (fun _ => 0) (fun _ => true)
        (⟨[], []⟩ : FullState Nat) [0]).1).sleepTotal =
      (⟨[], []⟩ : FullState Nat).sleepTotal +
        (sendWithRetry (NewConfig (some 1) none) (fun _ => DoResult.status 500)
          (fun _ => 0)).sleeps.sum :=
  ⟨by decide, by decide, rfl,
    C4_send_runs_inline (NewConfig (some 1) none) (fun _ => DoResult.status 500)
      (fun _ => 0) (fun _ => true) (⟨[], []⟩ : FullState Nat) [0]
      (by decide) (by decide) rfl⟩

/-- C10: a single logs `Export` call appends all its entries before the one
threshold evaluation, so when the combined buffer reaches `BatchSize`, the
single resulting flush drains every buffered record into exactly one sent
batch — the batch may be larger than `BatchSize`, the live buffer is empty
afterwards, and exactly one size-triggered flush occurs no matter how far
the threshold was exceeded. -/
theorem C10_single_flush_drains_all {α : Type} (cfg : Config) (s : ExporterState α)
    (entries : List α)
    (hthresh : cfg.batchSize ≤ (s.batch ++ entries).length)
    (hne : (s.batch ++ entries).isEmpty = false) :
    DefaultLogsExporter.Export cfg s entries =
      ⟨[], s.sent ++ [s.batch ++ entries]⟩ := by
  unfold DefaultLogsExporter.Export DefaultLogsExporter.flush
  rw [if_pos hthresh]
  simp [hne]

/-- Witness for C10: with `BatchSize = 2` and five entries in one `Export`
call, exactly one batch of all five records is sent, exceeding the size
threshold, and the buffer is left empty. -/
theorem C10_single_flush_witness :
    (NewConfig (some 2) none).batchSize ≤ (([] : List Nat) ++ [0, 1, 2, 3, 4]).length ∧
    (([] : List Nat) ++ [0, 1, 2, 3, 4]).isEmpty = false ∧
    DefaultLogsExporter.Export (NewConfig (some 2) none)
        (⟨[], []⟩ : ExporterState Nat) [0, 1, 2, 3, 4] =
      ⟨[], [] ++ [([] : List Nat) ++ [0, 1, 2, 3, 4]]⟩ ∧
    (NewConfig (some 2) none).batchSize < [0, 1, 2, 3, 4].length :=
  ⟨by decide, by decide,
    C10_single_flush_drains_all (NewConfig (some 2) none) (⟨[], []⟩ : ExporterState Nat)
      [0, 1, 2, 3, 4] (by decide) (by decide), by decide⟩
